import Mathlib

/-!
Shallow embedding of the Attendance Tracker backend (`src/app.py`).

The program is a Flask + SQLAlchemy application with two tables (`User`,
`Attendance`) and JSON request handlers.  We embed the store as lists of
rows (list order = insertion order, matching SQLite row order for
`first()`/`all()`), the handlers as pure functions `Store → args → Store ×
Response`, and the clock (`datetime.utcnow()`) as an explicit `DateTime`
argument.  HTTP routing, query-string parsing and password hashing
internals are outside the embedding; each handler takes its already
decoded JSON body (`Option` fields model optional JSON keys, `none` for
the whole body models a missing/empty JSON payload, which is falsy in the
Python code).
-/

namespace AttendanceApp

/-- A timestamp, modelling Python `datetime.datetime` (no sub-second part,
which the code never observes through `strftime('%Y-%m-%d %H:%M:%S')`). -/
structure DateTime where
  year : Nat
  month : Nat
  day : Nat
  hour : Nat
  minute : Nat
  second : Nat
deriving DecidableEq, Repr

/-- A calendar date, modelling Python `datetime.date`. -/
structure CalDate where
  year : Nat
  month : Nat
  day : Nat
deriving DecidableEq, Repr

/-- `datetime.date()` — the calendar date of a timestamp. -/
def DateTime.toDate (t : DateTime) : CalDate := ⟨t.year, t.month, t.day⟩

/-- Zero-pad to two digits, as `strftime` does for `%m %d %H %M %S`. -/
def pad2 (n : Nat) : String := if n < 10 then "0" ++ toString n else toString n

/-- Zero-pad to four digits, as `strftime` does for `%Y`. -/
def pad4 (n : Nat) : String :=
  if n < 10 then "000" ++ toString n
  else if n < 100 then "00" ++ toString n
  else if n < 1000 then "0" ++ toString n
  else toString n

/-- `strftime('%Y-%m-%d %H:%M:%S')` on a timestamp. -/
def DateTime.fmt (t : DateTime) : String :=
  pad4 t.year ++ "-" ++ pad2 t.month ++ "-" ++ pad2 t.day ++ " " ++
    pad2 t.hour ++ ":" ++ pad2 t.minute ++ ":" ++ pad2 t.second

/-- `strftime('%Y-%m-%d')` on a date. -/
def CalDate.fmt (d : CalDate) : String :=
  pad4 d.year ++ "-" ++ pad2 d.month ++ "-" ++ pad2 d.day

/-- JSON values as produced by the handlers (numbers split into naturals
for counts/ids and rationals for the rounded percentages). -/
inductive Json where
  | s : String → Json
  | n : Nat → Json
  | q : ℚ → Json
  | null : Json
  | obj : List (String × Json) → Json
  | arr : List Json → Json

/-- Key lookup in a JSON object (first binding wins, as in a Python dict
built from distinct keys). -/
def Json.lookup (j : Json) (k : String) : Option Json :=
  match j with
  | Json.obj kvs => (kvs.find? (fun kv => kv.1 == k)).map Prod.snd
  | _ => none

/-- Keys of a JSON object, in order. -/
def Json.keys (j : Json) : List String :=
  match j with
  | Json.obj kvs => kvs.map Prod.fst
  | _ => []

/-- A row of the `user` table. -/
structure User where
  id : Nat
  username : String
  email : String
  password : String
  role : String
  created_at : DateTime
deriving DecidableEq, Repr

/-- Model of `werkzeug.generate_password_hash`; the hashing algorithm is
out of scope (the code never inspects the hash except via
`check_password_hash`), so it is modelled as a tagging function. -/
def generate_password_hash (p : String) : String := "pbkdf2-sha256$" ++ p

/-- `User.to_dict` — the public representation of a user. -/
def User.to_dict (u : User) : List (String × Json) :=
  [("id", Json.n u.id),
   ("username", Json.s u.username),
   ("email", Json.s u.email),
   ("role", Json.s u.role),
   ("created_at", Json.s u.created_at.fmt)]

/-- A row of the `attendance` table.  `check_in_time` and `date` always
carry their column defaults (`datetime.utcnow`), hence are not optional;
`check_out_time` is nullable. -/
structure Attendance where
  id : Nat
  user_id : Nat
  check_in_time : DateTime
  check_out_time : Option DateTime
  status : String
  notes : String
  date : CalDate
deriving DecidableEq, Repr

/-- `User.query.get(uid)` — primary-key lookup. -/
def findUser (users : List User) (uid : Nat) : Option User :=
  users.find? (fun u => u.id == uid)

/-- `Attendance.to_dict` — the public representation of a record,
including the owning user's username via the `backref` join. -/
def Attendance.to_dict (users : List User) (a : Attendance) : List (String × Json) :=
  [("id", Json.n a.id),
   ("user_id", Json.n a.user_id),
   ("username", match findUser users a.user_id with
                | some u => Json.s u.username
                | none => Json.null),
   ("check_in_time", Json.s a.check_in_time.fmt),
   ("check_out_time", match a.check_out_time with
                      | some t => Json.s t.fmt
                      | none => Json.null),
   ("status", Json.s a.status),
   ("notes", Json.s a.notes),
   ("date", Json.s a.date.fmt)]

/-- The relational store: both tables plus the autoincrement counters. -/
structure Store where
  users : List User
  records : List Attendance
  next_user_id : Nat
  next_att_id : Nat
deriving DecidableEq, Repr

/-- An HTTP response: status code and JSON body. -/
structure Response where
  status : Nat
  body : Json

/-- `jsonify({'error': msg}), code`. -/
def errResp (code : Nat) (msg : String) : Response :=
  ⟨code, Json.obj [("error", Json.s msg)]⟩

/-- JSON body of `POST /api/users` and `PUT /api/users/{id}`. -/
structure UserBody where
  username : Option String
  email : Option String
  password : Option String
  role : Option String
deriving DecidableEq, Repr

/-- JSON body of `POST /api/attendance`. -/
structure MarkBody where
  user_id : Option Nat
  status : Option String
  notes : Option String
deriving DecidableEq, Repr

/-- JSON body of `PUT /api/attendance/{id}`; `check_out_time` arrives as
an ISO-8601 string to be parsed. -/
structure AttUpdateBody where
  status : Option String
  notes : Option String
  check_out_time : Option String
deriving DecidableEq, Repr

/-- `GET /api/users` — list all users. -/
def get_users (s : Store) : Response :=
  ⟨200, Json.arr (s.users.map (fun u => Json.obj u.to_dict))⟩

/-- `POST /api/users` (`create_user`). -/
def create_user (s : Store) (now : DateTime) (data : Option UserBody) :
    Store × Response :=
  match data with
  | none => (s, errResp 400 "Missing required fields")
  | some d =>
    match d.username, d.email, d.password with
    | some un, some em, some pw =>
      if (s.users.find? (fun u => u.username == un)).isSome then
        (s, errResp 400 "Username already exists")
      else if (s.users.find? (fun u => u.email == em)).isSome then
        (s, errResp 400 "Email already exists")
      else
        let u : User :=
          ⟨s.next_user_id, un, em, generate_password_hash pw, d.role.getD "user", now⟩
        ({ s with users := s.users ++ [u], next_user_id := s.next_user_id + 1 },
         ⟨201, Json.obj [("message", Json.s "User created successfully"),
                         ("user", Json.obj u.to_dict)]⟩)
    | _, _, _ => (s, errResp 400 "Missing required fields")

/-- `GET /api/users/{id}` (`get_user`). -/
def get_user (s : Store) (uid : Nat) : Response :=
  match findUser s.users uid with
  | none => errResp 404 "User not found"
  | some u => ⟨200, Json.obj u.to_dict⟩

/-- `PUT /api/users/{id}` (`update_user`).  A missing JSON body makes
`'username' in data` raise in Python; the handler's `except` turns that
into a 500 after rollback.  The handler performs no uniqueness re-check
of its own, but `username` and `email` are `unique=True` columns, so
`db.session.commit()` raises `IntegrityError` when the updated value
equals another live row's; the `except` branch rolls back and responds
500 with the constraint-failure text.  (When both columns collide the
model reports the `username` index, mirroring declaration order; no
claim depends on which message is produced.) -/
def update_user (s : Store) (uid : Nat) (data : Option UserBody) :
    Store × Response :=
  match findUser s.users uid with
  | none => (s, errResp 404 "User not found")
  | some u =>
    match data with
    | none => (s, errResp 500 "argument of type NoneType is not iterable")
    | some d =>
      let u2 : User :=
        { u with username := d.username.getD u.username,
                 email := d.email.getD u.email,
                 role := d.role.getD u.role }
      if s.users.any (fun v => v.id != uid && v.username == u2.username) then
        (s, errResp 500 "UNIQUE constraint failed: user.username")
      else if s.users.any (fun v => v.id != uid && v.email == u2.email) then
        (s, errResp 500 "UNIQUE constraint failed: user.email")
      else
        ({ s with users := s.users.map (fun v => if v.id == uid then u2 else v) },
         ⟨200, Json.obj [("message", Json.s "User updated successfully"),
                         ("user", Json.obj u2.to_dict)]⟩)

/-- `DELETE /api/users/{id}` (`delete_user`).  The relationship is
declared `cascade='all, delete-orphan'`, so deleting the user deletes all
of its attendance records. -/
def delete_user (s : Store) (uid : Nat) : Store × Response :=
  match findUser s.users uid with
  | none => (s, errResp 404 "User not found")
  | some _ =>
    ({ s with users := s.users.filter (fun u => u.id != uid),
              records := s.records.filter (fun r => r.user_id != uid) },
     ⟨200, Json.obj [("message", Json.s "User deleted successfully")]⟩)

/-- `GET /api/attendance` (`get_attendance`).  The query-string values
arrive already parsed (`strptime` of the `date` argument is outside the
embedding); the handler applies the two optional exact-match filters in
sequence. -/
def get_attendance (s : Store) (dateArg : Option CalDate) (uidArg : Option Nat) :
    Response :=
  let q0 : List Attendance := s.records
  let q1 : List Attendance :=
    match dateArg with
    | some d => q0.filter (fun r => r.date == d)
    | none => q0
  let q2 : List Attendance :=
    match uidArg with
    | some uid => q1.filter (fun r => r.user_id == uid)
    | none => q1
  ⟨200, Json.arr (q2.map (fun r => Json.obj (r.to_dict s.users)))⟩

/-- The `filter_by(user_id=..., date=today)` predicate in `mark_attendance`. -/
def matchesToday (uid : Nat) (today : CalDate) (r : Attendance) : Bool :=
  r.user_id == uid && r.date == today

/-- Set `check_out_time` on the first record matching `(uid, today)` —
the row `first()` returned, mutated in place by the session. -/
def setCheckoutFirst (uid : Nat) (today : CalDate) (t : DateTime) :
    List Attendance → List Attendance
  | [] => []
  | r :: rs =>
    if matchesToday uid today r then { r with check_out_time := some t } :: rs
    else r :: setCheckoutFirst uid today t rs

/-- The check-in branch of `mark_attendance`: insert a fresh record with
column defaults for `check_in_time` and `date`. -/
def checkInRecord (s : Store) (now : DateTime) (uid : Nat) (d : MarkBody) :
    Store × Response :=
  let a : Attendance :=
    ⟨s.next_att_id, uid, now, none, d.status.getD "present", d.notes.getD "", now.toDate⟩
  ({ s with records := s.records ++ [a], next_att_id := s.next_att_id + 1 },
   ⟨201, Json.obj [("message", Json.s "Check-in recorded successfully")]⟩)

/-- `POST /api/attendance` (`mark_attendance`) — the check-in/check-out
toggle keyed on `(user_id, today)`. -/
def mark_attendance (s : Store) (now : DateTime) (data : Option MarkBody) :
    Store × Response :=
  match data with
  | none => (s, errResp 400 "user_id is required")
  | some d =>
    match d.user_id with
    | none => (s, errResp 400 "user_id is required")
    | some uid =>
      match findUser s.users uid with
      | none => (s, errResp 404 "User not found")
      | some _ =>
        let today := now.toDate
        match s.records.find? (fun r => matchesToday uid today r) with
        | some ex =>
          if ex.check_out_time = none then
            ({ s with records := setCheckoutFirst uid today now s.records },
             ⟨201, Json.obj [("message", Json.s "Check-out recorded successfully")]⟩)
          else checkInRecord s now uid d
        | none => checkInRecord s now uid d

/-- `Attendance.query.get(rid)` — primary-key lookup. -/
def findRecord (rs : List Attendance) (rid : Nat) : Option Attendance :=
  rs.find? (fun r => r.id == rid)

/-- `GET /api/attendance/{id}` (`get_attendance_record`). -/
def get_attendance_record (s : Store) (rid : Nat) : Response :=
  match findRecord s.records rid with
  | none => errResp 404 "Attendance record not found"
  | some r => ⟨200, Json.obj (r.to_dict s.users)⟩

/-- Numeric value of an ASCII digit. -/
def digitVal (c : Char) : Nat := c.toNat - 48

/-- Two-digit numeral. -/
def num2 (a b : Char) : Nat := 10 * digitVal a + digitVal b

/-- Four-digit numeral. -/
def num4 (a b c d : Char) : Nat :=
  10 * (10 * (10 * digitVal a + digitVal b) + digitVal c) + digitVal d

/-- Model of `datetime.fromisoformat`, restricted to full
`YYYY-MM-DD*HH:MM:SS` timestamps (`*` any separator character, as in
CPython); anything else is a parse failure (`ValueError` in Python).
Python also accepts some shorter forms, which no claim depends on: the
model only needs the parser to be total with a genuine failure case. -/
def fromisoformat (str : String) : Option DateTime :=
  match str.toList with
  | [y1, y2, y3, y4, c1, m1, m2, c2, d1, d2, _sep, h1, h2, c3, n1, n2, c4, s1, s2] =>
    if c1 = '-' ∧ c2 = '-' ∧ c3 = ':' ∧ c4 = ':' ∧
       y1.isDigit ∧ y2.isDigit ∧ y3.isDigit ∧ y4.isDigit ∧
       m1.isDigit ∧ m2.isDigit ∧ d1.isDigit ∧ d2.isDigit ∧
       h1.isDigit ∧ h2.isDigit ∧ n1.isDigit ∧ n2.isDigit ∧
       s1.isDigit ∧ s2.isDigit then
      some ⟨num4 y1 y2 y3 y4, num2 m1 m2, num2 d1 d2,
            num2 h1 h2, num2 n1 n2, num2 s1 s2⟩
    else none
  | _ => none

/-- Replace the record with primary key `rid` (the session's in-place
mutation of the fetched row). -/
def replaceRecord (rs : List Attendance) (rid : Nat) (r2 : Attendance) :
    List Attendance :=
  rs.map (fun r => if r.id == rid then r2 else r)

/-- `PUT /api/attendance/{id}` (`update_attendance`).  `status` and
`notes` are assigned before `check_out_time` is parsed; when the parse
raises, `db.session.rollback()` discards those assignments, so the error
path returns the original store. -/
def update_attendance (s : Store) (rid : Nat) (data : Option AttUpdateBody) :
    Store × Response :=
  match findRecord s.records rid with
  | none => (s, errResp 404 "Attendance record not found")
  | some r =>
    match data with
    | none => (s, errResp 500 "argument of type NoneType is not iterable")
    | some d =>
      let r1 : Attendance :=
        { r with status := d.status.getD r.status, notes := d.notes.getD r.notes }
      match d.check_out_time with
      | none =>
        let s2 := { s with records := replaceRecord s.records rid r1 }
        (s2, ⟨200, Json.obj [("message", Json.s "Attendance updated successfully"),
                             ("record", Json.obj (r1.to_dict s2.users))]⟩)
      | some ts =>
        match fromisoformat ts with
        | none => (s, errResp 500 "Invalid isoformat string")
        | some t =>
          let r2 : Attendance := { r1 with check_out_time := some t }
          let s2 := { s with records := replaceRecord s.records rid r2 }
          (s2, ⟨200, Json.obj [("message", Json.s "Attendance updated successfully"),
                               ("record", Json.obj (r2.to_dict s2.users))]⟩)

/-- `DELETE /api/attendance/{id}` (`delete_attendance`). -/
def delete_attendance (s : Store) (rid : Nat) : Store × Response :=
  match findRecord s.records rid with
  | none => (s, errResp 404 "Attendance record not found")
  | some _ =>
    ({ s with records := s.records.filter (fun r => r.id != rid) },
     ⟨200, Json.obj [("message", Json.s "Attendance record deleted successfully")]⟩)

/-- Python `round(x, 2)` on the exact rational value (Python rounds the
nearest float, with ties to even; the claims never hinge on a tie). -/
def round2 (x : ℚ) : ℚ := (((x * 100 + 1 / 2).floor : ℤ) : ℚ) / 100

/-- `Attendance.query.filter_by(status=st).count()` over a record list. -/
def countStatus (rs : List Attendance) (st : String) : Nat :=
  (rs.filter (fun r => r.status == st)).length

/-- `GET /api/analytics/summary` (`get_summary`). -/
def get_summary (s : Store) : Response :=
  let p := countStatus s.records "present"
  let ab := countStatus s.records "absent"
  let lt := countStatus s.records "late"
  ⟨200, Json.obj
    [("total_users", Json.n s.users.length),
     ("total_present", Json.n p),
     ("total_absent", Json.n ab),
     ("total_late", Json.n lt),
     ("attendance_rate",
      Json.q (if p + ab > 0 then round2 ((p : ℚ) / ((p : ℚ) + (ab : ℚ)) * 100) else 0))]⟩

/-- `Attendance.query.filter_by(user_id=uid)` over the store. -/
def userRecords (s : Store) (uid : Nat) : List Attendance :=
  s.records.filter (fun r => r.user_id == uid)

/-- `GET /api/analytics/user/{id}` (`get_user_analytics`). -/
def get_user_analytics (s : Store) (uid : Nat) : Response :=
  match findUser s.users uid with
  | none => errResp 404 "User not found"
  | some u =>
    let tot := (userRecords s uid).length
    let p := countStatus (userRecords s uid) "present"
    let ab := countStatus (userRecords s uid) "absent"
    let lt := countStatus (userRecords s uid) "late"
    ⟨200, Json.obj
      [("username", Json.s u.username),
       ("total_records", Json.n tot),
       ("present", Json.n p),
       ("absent", Json.n ab),
       ("late", Json.n lt),
       ("attendance_percentage",
        Json.q (if tot > 0 then round2 ((p : ℚ) / (tot : ℚ) * 100) else 0))]⟩

/-- `GET /api/health` (`health_check`). -/
def health_check : Response :=
  ⟨200, Json.obj [("status", Json.s "healthy"),
                  ("message", Json.s "Attendance Tracker is running")]⟩

/-- What the error-handling policy promises of one mutating handler call
on store `s`: the status code is one of the five the handlers produce,
and on any error status the store is returned unchanged (rollback) with a
`{'error': message}` body. -/
def atomicHandler (s : Store) (out : Store × Response) : Prop :=
  (out.2.status = 200 ∨ out.2.status = 201 ∨ out.2.status = 400 ∨
    out.2.status = 404 ∨ out.2.status = 500) ∧
  ((out.2.status = 400 ∨ out.2.status = 404 ∨ out.2.status = 500) →
    out.1 = s ∧ ∃ m, out.2.body = Json.obj [("error", Json.s m)])

/-- A record whose status is none of the three counted statuses
(e.g. `"leave"`). -/
def otherStatus (r : Attendance) : Bool :=
  !(r.status == "present") && !(r.status == "absent") && !(r.status == "late")

/-- Concrete data for witnesses. -/
def sampleUser : User := ⟨1, "alice", "a@x.com", "hash1", "user", ⟨2025, 1, 1, 8, 0, 0⟩⟩

def sampleUser2 : User := ⟨2, "bob", "b@x.com", "hash2", "admin", ⟨2025, 1, 1, 9, 0, 0⟩⟩

def t1 : DateTime := ⟨2025, 1, 2, 9, 0, 0⟩

def t2 : DateTime := ⟨2025, 1, 2, 17, 0, 0⟩

def t3 : DateTime := ⟨2025, 1, 2, 18, 0, 0⟩

def d0 : CalDate := ⟨2025, 1, 2⟩

/-- One user, no attendance yet. -/
def sampleStore : Store := ⟨[sampleUser], [], 2, 1⟩

/-- Two users, four attendance records of mixed statuses for user 1
(including a `"leave"` record that no analytics count tallies). -/
def wStore : Store :=
  ⟨[sampleUser, sampleUser2],
   [⟨1, 1, t1, none, "present", "", d0⟩,
    ⟨2, 1, t1, none, "absent", "", d0⟩,
    ⟨3, 1, t1, none, "late", "", d0⟩,
    ⟨4, 1, t1, none, "leave", "", d0⟩],
   3, 5⟩

end AttendanceApp

namespace AttendanceApp

/-- Batteries `Rat.floor` agrees with the `FloorRing` floor on `ℚ`. -/
theorem ratFloor_eq_intFloor (q : ℚ) : q.floor = ⌊q⌋ := by
  rw [Rat.floor_def', Rat.floor_def]

/-- `countStatus` is a `countP`. -/
theorem countStatus_eq_countP (rs : List Attendance) (st : String) :
    countStatus rs st = rs.countP (fun r => r.status == st) := by
  simp [countStatus, List.countP_eq_length_filter]

/-- Every record falls in exactly one of the four status buckets, so the
three counted statuses plus the rest partition the record list. -/
theorem statusCount_partition (l : List Attendance) :
    countStatus l "present" + countStatus l "absent" + countStatus l "late" +
      l.countP otherStatus = l.length := by
  induction l with
  | nil => simp [countStatus]
  | cons r rs ih =>
    simp only [countStatus, List.filter_cons, List.countP_cons, List.length_cons] at *
    by_cases h1 : r.status = "present" <;>
      by_cases h2 : r.status = "absent" <;>
      by_cases h3 : r.status = "late" <;>
      simp [otherStatus, h1, h2, h3] at * <;> omega

/-- C2: the global summary's `attendance_rate` is
`present / (present + absent) × 100` rounded to 2 decimals, with an
explicit 0 when `present + absent = 0`; the per-user
`attendance_percentage` is `present / total × 100` rounded to 2 decimals,
with an explicit 0 when the user has no records; the counts tally records
whose status equals exactly `"present"` / `"absent"` / `"late"`. -/
theorem analytics_rates_spec (s : Store) (uid : Nat) (u : User)
    (hu : findUser s.users uid = some u) :
    (get_summary s).status = 200 ∧
    (get_summary s).body.lookup "total_present" =
      some (Json.n (s.records.countP (fun r => r.status == "present"))) ∧
    (get_summary s).body.lookup "total_absent" =
      some (Json.n (s.records.countP (fun r => r.status == "absent"))) ∧
    (get_summary s).body.lookup "total_late" =
      some (Json.n (s.records.countP (fun r => r.status == "late"))) ∧
    (countStatus s.records "present" + countStatus s.records "absent" = 0 →
      (get_summary s).body.lookup "attendance_rate" = some (Json.q 0)) ∧
    (0 < countStatus s.records "present" + countStatus s.records "absent" →
      (get_summary s).body.lookup "attendance_rate" =
        some (Json.q (round2 ((countStatus s.records "present" : ℚ) /
          ((countStatus s.records "present" : ℚ) + (countStatus s.records "absent" : ℚ)) * 100)))) ∧
    (get_user_analytics s uid).status = 200 ∧
    (get_user_analytics s uid).body.lookup "present" =
      some (Json.n ((userRecords s uid).countP (fun r => r.status == "present"))) ∧
    ((userRecords s uid).length = 0 →
      (get_user_analytics s uid).body.lookup "attendance_percentage" = some (Json.q 0)) ∧
    (0 < (userRecords s uid).length →
      (get_user_analytics s uid).body.lookup "attendance_percentage" =
        some (Json.q (round2 ((countStatus (userRecords s uid) "present" : ℚ) /
          ((userRecords s uid).length : ℚ) * 100)))) := by
  refine ⟨rfl, ?_, ?_, ?_, ?_, ?_, ?_, ?_, ?_, ?_⟩
  · simp [get_summary, Json.lookup, countStatus_eq_countP]
  · simp [get_summary, Json.lookup, countStatus_eq_countP]
  · simp [get_summary, Json.lookup, countStatus_eq_countP]
  · intro h
    simp only [get_summary, Json.lookup]
    rw [if_neg (by omega)]
    rfl
  · intro h
    simp only [get_summary, Json.lookup]
    rw [if_pos (by omega)]
    rfl
  · simp [get_user_analytics, hu]
  · simp only [get_user_analytics, hu, Json.lookup, countStatus_eq_countP]
    rfl
  · intro h
    simp only [get_user_analytics, hu, Json.lookup]
    rw [if_neg (by omega)]
    rfl
  · intro h
    simp only [get_user_analytics, hu, Json.lookup]
    rw [if_pos (by omega)]
    rfl

/-- Witness for C2 on a concrete store: both denominators positive. -/
theorem analytics_rates_spec_witness :
    (get_summary wStore).body.lookup "attendance_rate" =
      some (Json.q (round2 ((countStatus wStore.records "present" : ℚ) /
        ((countStatus wStore.records "present" : ℚ) +
          (countStatus wStore.records "absent" : ℚ)) * 100))) ∧
    (get_user_analytics wStore 1).body.lookup "attendance_percentage" =
      some (Json.q (round2 ((countStatus (userRecords wStore 1) "present" : ℚ) /
        ((userRecords wStore 1).length : ℚ) * 100))) :=
  ⟨(analytics_rates_spec wStore 1 sampleUser (by decide)).2.2.2.2.2.1 (by decide),
   (analytics_rates_spec wStore 1 sampleUser (by decide)).2.2.2.2.2.2.2.2.2 (by decide)⟩

/-- C10: in the per-user analytics, the three status counts together with
the uncounted statuses partition the user's records, so
`present + absent + late ≤ total_records`; a record with any other status
(such as `"leave"`) contributes to `total_records` but to none of the
three counts. -/
theorem user_analytics_partition (s : Store) (uid : Nat) (u : User)
    (hu : findUser s.users uid = some u) :
    (get_user_analytics s uid).body.lookup "total_records" =
      some (Json.n (userRecords s uid).length) ∧
    (get_user_analytics s uid).body.lookup "present" =
      some (Json.n (countStatus (userRecords s uid) "present")) ∧
    (get_user_analytics s uid).body.lookup "absent" =
      some (Json.n (countStatus (userRecords s uid) "absent")) ∧
    (get_user_analytics s uid).body.lookup "late" =
      some (Json.n (countStatus (userRecords s uid) "late")) ∧
    countStatus (userRecords s uid) "present" + countStatus (userRecords s uid) "absent" +
      countStatus (userRecords s uid) "late" + (userRecords s uid).countP otherStatus =
      (userRecords s uid).length ∧
    countStatus (userRecords s uid) "present" + countStatus (userRecords s uid) "absent" +
      countStatus (userRecords s uid) "late" ≤ (userRecords s uid).length := by
  refine ⟨?_, ?_, ?_, ?_, statusCount_partition _, ?_⟩
  · simp only [get_user_analytics, hu, Json.lookup]; rfl
  · simp only [get_user_analytics, hu, Json.lookup]; rfl
  · simp only [get_user_analytics, hu, Json.lookup]; rfl
  · simp only [get_user_analytics, hu, Json.lookup]; rfl
  · have := statusCount_partition (userRecords s uid)
    omega

/-- Witness for C10 on a store containing a `"leave"` record: the three
counts sum to 3 while `total_records` is 4. -/
theorem user_analytics_partition_witness :
    (get_user_analytics wStore 1).body.lookup "total_records" =
      some (Json.n (userRecords wStore 1).length) ∧
    countStatus (userRecords wStore 1) "present" + countStatus (userRecords wStore 1) "absent" +
      countStatus (userRecords wStore 1) "late" ≤ (userRecords wStore 1).length :=
  ⟨(user_analytics_partition wStore 1 sampleUser (by decide)).1,
   (user_analytics_partition wStore 1 sampleUser (by decide)).2.2.2.2.2⟩

/-- C3: user creation fails with 400 and persists nothing when the body
is missing a required field or when the username or email duplicates an
existing user; otherwise it persists exactly one new user whose role
defaults to `"user"` and responds 201. -/
theorem create_user_spec (s : Store) (now : DateTime) :
    create_user s now none = (s, errResp 400 "Missing required fields") ∧
    (∀ d : UserBody, d.username = none ∨ d.email = none ∨ d.password = none →
      create_user s now (some d) = (s, errResp 400 "Missing required fields")) ∧
    (∀ (d : UserBody) (un em pw : String),
      d.username = some un → d.email = some em → d.password = some pw →
      ((∃ u ∈ s.users, u.username = un) →
        create_user s now (some d) = (s, errResp 400 "Username already exists")) ∧
      ((∀ u ∈ s.users, u.username ≠ un) → (∃ u ∈ s.users, u.email = em) →
        create_user s now (some d) = (s, errResp 400 "Email already exists")) ∧
      ((∀ u ∈ s.users, u.username ≠ un) → (∀ u ∈ s.users, u.email ≠ em) →
        create_user s now (some d) =
          ({ s with
              users := s.users ++
                [⟨s.next_user_id, un, em, generate_password_hash pw, d.role.getD "user", now⟩],
              next_user_id := s.next_user_id + 1 },
           ⟨201, Json.obj [("message", Json.s "User created successfully"),
             ("user", Json.obj (User.to_dict
               ⟨s.next_user_id, un, em, generate_password_hash pw, d.role.getD "user", now⟩))]⟩))) := by
  refine ⟨rfl, ?_, ?_⟩
  · rintro ⟨du, de, dp, dr⟩ h
    rcases du with _ | un <;> rcases de with _ | em <;> rcases dp with _ | pw <;>
      simp_all [create_user]
  · intro d un em pw hun hem hpw
    refine ⟨?_, ?_, ?_⟩
    · rintro ⟨u, hu, hname⟩
      have hfind : (s.users.find? (fun v => v.username == un)).isSome = true :=
        List.find?_isSome.mpr ⟨u, hu, by simp [hname]⟩
      simp [create_user, hun, hem, hpw, hfind]
    · rintro hnone ⟨u, hu, hmail⟩
      have h1 : s.users.find? (fun v => v.username == un) = none :=
        List.find?_eq_none.mpr (fun x hx => by simp [hnone x hx])
      have h2 : (s.users.find? (fun v => v.email == em)).isSome = true :=
        List.find?_isSome.mpr ⟨u, hu, by simp [hmail]⟩
      simp [create_user, hun, hem, hpw, h1, h2]
    · intro hn1 hn2
      have h1 : s.users.find? (fun v => v.username == un) = none :=
        List.find?_eq_none.mpr (fun x hx => by simp [hn1 x hx])
      have h2 : s.users.find? (fun v => v.email == em) = none :=
        List.find?_eq_none.mpr (fun x hx => by simp [hn2 x hx])
      simp [create_user, hun, hem, hpw, h1, h2]

/-- Witness for C3: duplicate username rejected on a concrete store, and
a fresh user created with the default role. -/
theorem create_user_spec_witness :
    create_user sampleStore t1 (some ⟨some "alice", some "c@x.com", some "pw", none⟩) =
      (sampleStore, errResp 400 "Username already exists") ∧
    create_user sampleStore t1 (some ⟨some "carol", some "c@x.com", some "pw", none⟩) =
      ({ sampleStore with
          users := sampleStore.users ++
            [⟨2, "carol", "c@x.com", generate_password_hash "pw", "user", t1⟩],
          next_user_id := 3 },
       ⟨201, Json.obj [("message", Json.s "User created successfully"),
         ("user", Json.obj (User.to_dict
           ⟨2, "carol", "c@x.com", generate_password_hash "pw", "user", t1⟩))]⟩) :=
  ⟨((create_user_spec sampleStore t1).2.2 ⟨some "alice", some "c@x.com", some "pw", none⟩
      "alice" "c@x.com" "pw" rfl rfl rfl).1 ⟨sampleUser, by decide, by decide⟩,
   ((create_user_spec sampleStore t1).2.2 ⟨some "carol", some "c@x.com", some "pw", none⟩
      "carol" "c@x.com" "pw" rfl rfl rfl).2.2 (by decide) (by decide)⟩

/-- C4: deleting a known user removes the user row and every attendance
record referencing it (the cascade), so a subsequent filtered listing is
empty and the foreign-key invariant is preserved; an unknown id yields
404 and no change. -/
theorem delete_user_spec (s : Store) (uid : Nat) :
    (findUser s.users uid = none → delete_user s uid = (s, errResp 404 "User not found")) ∧
    (∀ u, findUser s.users uid = some u →
      (delete_user s uid).2.status = 200 ∧
      (delete_user s uid).1.users = s.users.filter (fun v => v.id != uid) ∧
      (delete_user s uid).1.records = s.records.filter (fun r => r.user_id != uid) ∧
      (∀ r ∈ (delete_user s uid).1.records, r.user_id ≠ uid) ∧
      get_attendance (delete_user s uid).1 none (some uid) = ⟨200, Json.arr []⟩ ∧
      ((∀ r ∈ s.records, ∃ w ∈ s.users, w.id = r.user_id) →
        ∀ r ∈ (delete_user s uid).1.records,
          ∃ w ∈ (delete_user s uid).1.users, w.id = r.user_id)) := by
  constructor
  · intro h
    simp [delete_user, h]
  · intro u hu
    have hd : delete_user s uid =
        ({ s with users := s.users.filter (fun v => v.id != uid),
                  records := s.records.filter (fun r => r.user_id != uid) },
         ⟨200, Json.obj [("message", Json.s "User deleted successfully")]⟩) := by
      simp [delete_user, hu]
    refine ⟨by rw [hd], by rw [hd], by rw [hd], ?_, ?_, ?_⟩
    · intro r hr
      rw [hd] at hr
      simp only [List.mem_filter] at hr
      simpa using hr.2
    · rw [hd]
      have hnil : (s.records.filter (fun r => r.user_id != uid)).filter
          (fun r => r.user_id == uid) = [] := by
        simp only [List.filter_eq_nil_iff, List.mem_filter]
        rintro r ⟨_, hne⟩
        simp_all
      simp [get_attendance, hnil]
    · intro hfk r hr
      rw [hd] at hr ⊢
      simp only [List.mem_filter] at hr
      obtain ⟨hrmem, hrne⟩ := hr
      obtain ⟨w, hw, hwid⟩ := hfk r hrmem
      refine ⟨w, ?_, hwid⟩
      simp only [List.mem_filter]
      refine ⟨hw, ?_⟩
      have : r.user_id ≠ uid := by simpa using hrne
      simp [hwid, this]

/-- C5: the public representation of a user consists of exactly
`id, username, email, role, created_at` (the last formatted as
`YYYY-MM-DD HH:MM:SS`) and never exposes the password hash; fetch and
list return exactly this representation, and fetching right after a
successful create returns the created username, email and role. -/
theorem user_public_repr (s : Store) (now : DateTime) (u0 : User) :
    (Json.obj u0.to_dict).keys = ["id", "username", "email", "role", "created_at"] ∧
    (Json.obj u0.to_dict).lookup "id" = some (Json.n u0.id) ∧
    (Json.obj u0.to_dict).lookup "username" = some (Json.s u0.username) ∧
    (Json.obj u0.to_dict).lookup "email" = some (Json.s u0.email) ∧
    (Json.obj u0.to_dict).lookup "role" = some (Json.s u0.role) ∧
    (Json.obj u0.to_dict).lookup "created_at" = some (Json.s u0.created_at.fmt) ∧
    (Json.obj u0.to_dict).lookup "password" = none ∧
    (∀ uid u, findUser s.users uid = some u → get_user s uid = ⟨200, Json.obj u.to_dict⟩) ∧
    get_users s = ⟨200, Json.arr (s.users.map (fun v => Json.obj v.to_dict))⟩ ∧
    (∀ (d : UserBody) (un em pw : String),
      d.username = some un → d.email = some em → d.password = some pw →
      (∀ v ∈ s.users, v.username ≠ un) → (∀ v ∈ s.users, v.email ≠ em) →
      (∀ v ∈ s.users, v.id ≠ s.next_user_id) →
      (get_user (create_user s now (some d)).1 s.next_user_id).status = 200 ∧
      (get_user (create_user s now (some d)).1 s.next_user_id).body.lookup "username" =
        some (Json.s un) ∧
      (get_user (create_user s now (some d)).1 s.next_user_id).body.lookup "email" =
        some (Json.s em) ∧
      (get_user (create_user s now (some d)).1 s.next_user_id).body.lookup "role" =
        some (Json.s (d.role.getD "user")) ∧
      (get_user (create_user s now (some d)).1 s.next_user_id).body.lookup "password" =
        none) := by
  refine ⟨rfl, rfl, rfl, rfl, rfl, rfl, rfl, ?_, rfl, ?_⟩
  · intro uid u hu
    simp [get_user, hu]
  · intro d un em pw hun hem hpw hn1 hn2 hid
    have hcr := ((create_user_spec s now).2.2 d un em pw hun hem hpw).2.2 hn1 hn2
    have hfind : findUser (create_user s now (some d)).1.users s.next_user_id =
        some ⟨s.next_user_id, un, em, generate_password_hash pw, d.role.getD "user", now⟩ := by
      rw [hcr]
      simp only [findUser]
      rw [List.find?_append]
      have hl : s.users.find? (fun u => u.id == s.next_user_id) = none :=
        List.find?_eq_none.mpr (fun x hx => by simp [hid x hx])
      rw [hl]
      simp
    simp [get_user, hfind, Json.lookup, User.to_dict]

/-- Witness for C5: fetch-after-create on the concrete store returns the
created fields and no password. -/
theorem user_public_repr_witness :
    (get_user (create_user sampleStore t1
        (some ⟨some "carol", some "c@x.com", some "pw", none⟩)).1 2).body.lookup "username" =
      some (Json.s "carol") ∧
    (get_user (create_user sampleStore t1
        (some ⟨some "carol", some "c@x.com", some "pw", none⟩)).1 2).body.lookup "role" =
      some (Json.s "user") ∧
    (get_user (create_user sampleStore t1
        (some ⟨some "carol", some "c@x.com", some "pw", none⟩)).1 2).body.lookup "password" =
      none :=
  ⟨((user_public_repr sampleStore t1 sampleUser).2.2.2.2.2.2.2.2.2
      ⟨some "carol", some "c@x.com", some "pw", none⟩ "carol" "c@x.com" "pw"
      rfl rfl rfl (by decide) (by decide) (by decide)).2.1,
   ((user_public_repr sampleStore t1 sampleUser).2.2.2.2.2.2.2.2.2
      ⟨some "carol", some "c@x.com", some "pw", none⟩ "carol" "c@x.com" "pw"
      rfl rfl rfl (by decide) (by decide) (by decide)).2.2.2.1,
   ((user_public_repr sampleStore t1 sampleUser).2.2.2.2.2.2.2.2.2
      ⟨some "carol", some "c@x.com", some "pw", none⟩ "carol" "c@x.com" "pw"
      rfl rfl rfl (by decide) (by decide) (by decide)).2.2.2.2⟩

/-- Counterexample to C7 as frozen: in a store where bob already owns
`b@x.com`, updating alice's email to that value is not accepted with 200
and nothing is overwritten — the commit fails on the UNIQUE index, rolls
back and answers 500, leaving the store unchanged. -/
theorem update_user_dup_counterexample :
    findUser wStore.users 1 = some sampleUser ∧
    (∃ v ∈ wStore.users, v.id ≠ 1 ∧ v.email = "b@x.com") ∧
    (update_user wStore 1 (some ⟨none, some "b@x.com", none, none⟩)).2.status = 500 ∧
    ¬((update_user wStore 1 (some ⟨none, some "b@x.com", none, none⟩)).2.status = 200) ∧
    (update_user wStore 1 (some ⟨none, some "b@x.com", none, none⟩)).1 = wStore := by
  decide

/-- C7 (amended): updating a known user overwrites exactly the supplied
subset of `{username, email, role}` — leaving `password`, `created_at`,
`id`, every other user and the attendance table unchanged — provided the
new username and email equal no other user's; the handler performs no
uniqueness re-check of its own and never answers 400, but the database
UNIQUE constraints make the commit fail when the new username or email
belongs to another user, rolling everything back and answering 500; an
unknown id yields 404 with no change. -/
theorem update_user_spec (s : Store) (uid : Nat) (d : UserBody) :
    (findUser s.users uid = none →
      update_user s uid (some d) = (s, errResp 404 "User not found")) ∧
    (∀ u, findUser s.users uid = some u →
      (update_user s uid (some d)).2.status ≠ 400 ∧
      ((∀ v ∈ s.users, v.id ≠ uid → v.username ≠ d.username.getD u.username) →
        (∀ v ∈ s.users, v.id ≠ uid → v.email ≠ d.email.getD u.email) →
        (update_user s uid (some d)).2.status = 200 ∧
        (update_user s uid (some d)).1.records = s.records ∧
        (update_user s uid (some d)).1.next_user_id = s.next_user_id ∧
        (update_user s uid (some d)).1.users =
          s.users.map (fun v => if v.id == uid then
            { u with username := d.username.getD u.username,
                     email := d.email.getD u.email,
                     role := d.role.getD u.role } else v) ∧
        (∀ v ∈ s.users, v.id ≠ uid → v ∈ (update_user s uid (some d)).1.users)) ∧
      ((∃ v ∈ s.users, v.id ≠ uid ∧
          (v.username = d.username.getD u.username ∨ v.email = d.email.getD u.email)) →
        (update_user s uid (some d)).2.status = 500 ∧
        (update_user s uid (some d)).1 = s) ∧
      ({ u with username := d.username.getD u.username,
                email := d.email.getD u.email,
                role := d.role.getD u.role } : User).password = u.password ∧
      ({ u with username := d.username.getD u.username,
                email := d.email.getD u.email,
                role := d.role.getD u.role } : User).created_at = u.created_at ∧
      ({ u with username := d.username.getD u.username,
                email := d.email.getD u.email,
                role := d.role.getD u.role } : User).id = u.id) := by
  constructor
  · intro h
    simp [update_user, h]
  · intro u hu
    refine ⟨?_, ?_, ?_, rfl, rfl, rfl⟩
    · simp only [update_user, hu]
      split_ifs <;> simp [errResp]
    · intro hn1 hn2
      have c1 : s.users.any (fun v => v.id != uid &&
          v.username == d.username.getD u.username) = false := by
        rw [List.any_eq_false]
        intro v hv
        by_cases hvid : v.id = uid
        · simp [hvid]
        · simp [hvid, hn1 v hv hvid]
      have c2 : s.users.any (fun v => v.id != uid &&
          v.email == d.email.getD u.email) = false := by
        rw [List.any_eq_false]
        intro v hv
        by_cases hvid : v.id = uid
        · simp [hvid]
        · simp [hvid, hn2 v hv hvid]
      have he : update_user s uid (some d) =
          ({ s with users := s.users.map (fun v => if v.id == uid then
                { u with username := d.username.getD u.username,
                         email := d.email.getD u.email,
                         role := d.role.getD u.role } else v) },
           ⟨200, Json.obj [("message", Json.s "User updated successfully"),
             ("user", Json.obj (User.to_dict
               { u with username := d.username.getD u.username,
                        email := d.email.getD u.email,
                        role := d.role.getD u.role }))]⟩) := by
        simp [update_user, hu, c1, c2]
      refine ⟨by rw [he], by rw [he], by rw [he], by rw [he], ?_⟩
      intro v hv hvne
      rw [he]
      simp only [List.mem_map]
      refine ⟨v, hv, ?_⟩
      simp [hvne]
    · rintro ⟨v, hv, hvne, hcol⟩
      rcases hcol with hcu | hce
      · have c1 : s.users.any (fun w => w.id != uid &&
            w.username == d.username.getD u.username) = true :=
          List.any_eq_true.mpr ⟨v, hv, by simp [hvne, hcu]⟩
        constructor <;> simp [update_user, hu, c1, errResp]
      · cases hc1 : s.users.any (fun w => w.id != uid &&
            w.username == d.username.getD u.username) with
        | true => constructor <;> simp [update_user, hu, hc1, errResp]
        | false =>
          have c2 : s.users.any (fun w => w.id != uid &&
              w.email == d.email.getD u.email) = true :=
            List.any_eq_true.mpr ⟨v, hv, by simp [hvne, hce]⟩
          constructor <;> simp [update_user, hu, hc1, c2, errResp]

/-- Witness for C7 (amended): a collision-free update (role only) is
accepted with 200, while updating user 1's email to bob's email fails
with 500 and leaves the store unchanged. -/
theorem update_user_spec_witness :
    (update_user wStore 1 (some ⟨none, none, none, some "manager"⟩)).2.status = 200 ∧
    (update_user wStore 1 (some ⟨none, some "b@x.com", none, none⟩)).2.status = 500 ∧
    (update_user wStore 1 (some ⟨none, some "b@x.com", none, none⟩)).1 = wStore :=
  ⟨(((update_user_spec wStore 1 ⟨none, none, none, some "manager"⟩).2 sampleUser
      (by decide)).2.1 (by decide) (by decide)).1,
   (((update_user_spec wStore 1 ⟨none, some "b@x.com", none, none⟩).2 sampleUser
      (by decide)).2.2.1 ⟨sampleUser2, by decide, by decide, Or.inr (by decide)⟩).1,
   (((update_user_spec wStore 1 ⟨none, some "b@x.com", none, none⟩).2 sampleUser
      (by decide)).2.2.1 ⟨sampleUser2, by decide, by decide, Or.inr (by decide)⟩).2⟩

/-- The public representation of an attendance record carries the owning
user's username (the join through the `user` backref). -/
theorem att_to_dict_username (users : List User) (r : Attendance) (u : User)
    (h : findUser users r.user_id = some u) :
    (Json.obj (r.to_dict users)).lookup "username" = some (Json.s u.username) := by
  simp only [Attendance.to_dict, Json.lookup, h]
  rfl

/-- C6: the attendance list applies the two optional filters as exact
matches: the returned array is the public representations of precisely
the records matching the given date (when supplied) and the given user id
(when supplied); with neither filter, of every record. -/
theorem get_attendance_filter_spec (s : Store) (dateArg : Option CalDate)
    (uidArg : Option Nat) :
    ∃ l : List Attendance,
      get_attendance s dateArg uidArg =
        ⟨200, Json.arr (l.map (fun r => Json.obj (r.to_dict s.users)))⟩ ∧
      l.Sublist s.records ∧
      (∀ r : Attendance, r ∈ l ↔ r ∈ s.records ∧
        (∀ dv, dateArg = some dv → r.date = dv) ∧
        (∀ uv, uidArg = some uv → r.user_id = uv)) ∧
      (∀ r ∈ l, ∀ u, findUser s.users r.user_id = some u →
        (Json.obj (r.to_dict s.users)).lookup "username" = some (Json.s u.username)) := by
  cases dateArg with
  | none =>
    cases uidArg with
    | none =>
      refine ⟨s.records, rfl, List.Sublist.refl _, ?_, ?_⟩
      · intro r; simp
      · intro r _ u hu; exact att_to_dict_username _ r u hu
    | some uv =>
      refine ⟨s.records.filter (fun r => r.user_id == uv), rfl, List.filter_sublist _, ?_, ?_⟩
      · intro r; simp [List.mem_filter]
      · intro r _ u hu; exact att_to_dict_username _ r u hu
  | some dv =>
    cases uidArg with
    | none =>
      refine ⟨s.records.filter (fun r => r.date == dv), rfl, List.filter_sublist _, ?_, ?_⟩
      · intro r; simp [List.mem_filter]
      · intro r _ u hu; exact att_to_dict_username _ r u hu
    | some uv =>
      refine ⟨(s.records.filter (fun r => r.date == dv)).filter (fun r => r.user_id == uv),
        by rfl, (List.filter_sublist _).trans (List.filter_sublist _), ?_, ?_⟩
      · intro r
        simp [List.mem_filter]
        tauto
      · intro r _ u hu; exact att_to_dict_username _ r u hu

/-- Witness for C6: the combined filter on the concrete store. -/
theorem get_attendance_filter_spec_witness :
    ∃ l : List Attendance,
      get_attendance wStore (some d0) (some 1) =
        ⟨200, Json.arr (l.map (fun r => Json.obj (r.to_dict wStore.users)))⟩ ∧
      l.Sublist wStore.records ∧
      (∀ r : Attendance, r ∈ l ↔ r ∈ wStore.records ∧
        (∀ dv, (some d0 : Option CalDate) = some dv → r.date = dv) ∧
        (∀ uv, (some 1 : Option Nat) = some uv → r.user_id = uv)) ∧
      (∀ r ∈ l, ∀ u, findUser wStore.users r.user_id = some u →
        (Json.obj (r.to_dict wStore.users)).lookup "username" = some (Json.s u.username)) :=
  get_attendance_filter_spec wStore (some d0) (some 1)

/-- `find?` skips a prefix on which the predicate is everywhere false. -/
theorem find?_append_left_none {α : Type} (p : α → Bool) (l₁ l₂ : List α)
    (h : l₁.find? p = none) : (l₁ ++ l₂).find? p = l₂.find? p := by
  rw [List.find?_append, h]
  rfl

/-- `setCheckoutFirst` rewrites exactly the first matching record and
leaves everything else in place. -/
theorem setCheckoutFirst_append (uid : Nat) (today : CalDate) (t : DateTime)
    (l₁ l₂ : List Attendance) (r : Attendance)
    (h : ∀ x ∈ l₁, matchesToday uid today x = false)
    (hr : matchesToday uid today r = true) :
    setCheckoutFirst uid today t (l₁ ++ r :: l₂) =
      l₁ ++ { r with check_out_time := some t } :: l₂ := by
  induction l₁ with
  | nil => simp [setCheckoutFirst, hr]
  | cons a l ih =>
    have ha := h a (List.mem_cons_self a l)
    simp only [List.cons_append, setCheckoutFirst, ha]
    simp only [Bool.false_eq_true, if_false, List.cons.injEq, true_and]
    exact ih (fun x hx => h x (List.mem_cons_of_mem a hx))

/-- C1: marking attendance is a toggle on `(user_id, today)`: for a fresh
user/day the first call appends an open record and answers 201 with the
check-in message; a second same-day call closes that record with the
current time and answers 201 with the check-out message; a third same-day
call appends a new open record with the check-in message.  A missing
`user_id` yields 400 and an unknown user 404. -/
theorem mark_attendance_toggle (s : Store) (uid : Nat) (u : User)
    (n1 n2 n3 : DateTime) (b1 b2 b3 : MarkBody)
    (hu : findUser s.users uid = some u)
    (hb1 : b1.user_id = some uid) (hb2 : b2.user_id = some uid) (hb3 : b3.user_id = some uid)
    (hd2 : n2.toDate = n1.toDate) (hd3 : n3.toDate = n1.toDate)
    (hfresh : ∀ r ∈ s.records, matchesToday uid n1.toDate r = false) :
    mark_attendance s n1 (some b1) =
      ({ s with
          records := s.records ++
            [⟨s.next_att_id, uid, n1, none, b1.status.getD "present", b1.notes.getD "", n1.toDate⟩],
          next_att_id := s.next_att_id + 1 },
       ⟨201, Json.obj [("message", Json.s "Check-in recorded successfully")]⟩) ∧
    mark_attendance (mark_attendance s n1 (some b1)).1 n2 (some b2) =
      ({ s with
          records := s.records ++
            [⟨s.next_att_id, uid, n1, some n2, b1.status.getD "present", b1.notes.getD "", n1.toDate⟩],
          next_att_id := s.next_att_id + 1 },
       ⟨201, Json.obj [("message", Json.s "Check-out recorded successfully")]⟩) ∧
    mark_attendance (mark_attendance (mark_attendance s n1 (some b1)).1 n2 (some b2)).1
        n3 (some b3) =
      ({ s with
          records := s.records ++
            [⟨s.next_att_id, uid, n1, some n2, b1.status.getD "present", b1.notes.getD "", n1.toDate⟩,
             ⟨s.next_att_id + 1, uid, n3, none, b3.status.getD "present", b3.notes.getD "", n3.toDate⟩],
          next_att_id := s.next_att_id + 1 + 1 },
       ⟨201, Json.obj [("message", Json.s "Check-in recorded successfully")]⟩) ∧
    mark_attendance s n1 none = (s, errResp 400 "user_id is required") ∧
    (∀ b : MarkBody, b.user_id = none →
      mark_attendance s n1 (some b) = (s, errResp 400 "user_id is required")) ∧
    (∀ (b : MarkBody) (v : Nat), b.user_id = some v → findUser s.users v = none →
      mark_attendance s n1 (some b) = (s, errResp 404 "User not found")) := by
  have hfind1 : s.records.find? (fun r => matchesToday uid n1.toDate r) = none :=
    List.find?_eq_none.mpr (fun x hx => by simp [hfresh x hx])
  have e1 : mark_attendance s n1 (some b1) =
      ({ s with
          records := s.records ++
            [⟨s.next_att_id, uid, n1, none, b1.status.getD "present", b1.notes.getD "", n1.toDate⟩],
          next_att_id := s.next_att_id + 1 },
       ⟨201, Json.obj [("message", Json.s "Check-in recorded successfully")]⟩) := by
    simp [mark_attendance, hb1, hu, hfind1, checkInRecord]
  have hfind2 : (s.records ++
      [(⟨s.next_att_id, uid, n1, none, b1.status.getD "present", b1.notes.getD "",
        n1.toDate⟩ : Attendance)]).find? (fun r => matchesToday uid n2.toDate r) =
      some ⟨s.next_att_id, uid, n1, none, b1.status.getD "present", b1.notes.getD "",
        n1.toDate⟩ := by
    rw [hd2, find?_append_left_none _ _ _ hfind1]
    simp [matchesToday]
  have hset : setCheckoutFirst uid n2.toDate n2 (s.records ++
      [(⟨s.next_att_id, uid, n1, none, b1.status.getD "present", b1.notes.getD "",
        n1.toDate⟩ : Attendance)]) =
      s.records ++ [⟨s.next_att_id, uid, n1, some n2, b1.status.getD "present",
        b1.notes.getD "", n1.toDate⟩] := by
    rw [hd2]
    exact setCheckoutFirst_append uid n1.toDate n2 s.records []
      ⟨s.next_att_id, uid, n1, none, b1.status.getD "present", b1.notes.getD "", n1.toDate⟩
      hfresh (by simp [matchesToday])
  have e2 : mark_attendance (mark_attendance s n1 (some b1)).1 n2 (some b2) =
      ({ s with
          records := s.records ++
            [⟨s.next_att_id, uid, n1, some n2, b1.status.getD "present", b1.notes.getD "", n1.toDate⟩],
          next_att_id := s.next_att_id + 1 },
       ⟨201, Json.obj [("message", Json.s "Check-out recorded successfully")]⟩) := by
    rw [e1]
    simp [mark_attendance, hb2, hu, hfind2, hset]
  have hfind3 : (s.records ++
      [(⟨s.next_att_id, uid, n1, some n2, b1.status.getD "present", b1.notes.getD "",
        n1.toDate⟩ : Attendance)]).find? (fun r => matchesToday uid n3.toDate r) =
      some ⟨s.next_att_id, uid, n1, some n2, b1.status.getD "present", b1.notes.getD "",
        n1.toDate⟩ := by
    rw [hd3, find?_append_left_none _ _ _ hfind1]
    simp [matchesToday]
  have e3 : mark_attendance (mark_attendance (mark_attendance s n1 (some b1)).1 n2 (some b2)).1
      n3 (some b3) =
      ({ s with
          records := s.records ++
            [⟨s.next_att_id, uid, n1, some n2, b1.status.getD "present", b1.notes.getD "", n1.toDate⟩,
             ⟨s.next_att_id + 1, uid, n3, none, b3.status.getD "present", b3.notes.getD "", n3.toDate⟩],
          next_att_id := s.next_att_id + 1 + 1 },
       ⟨201, Json.obj [("message", Json.s "Check-in recorded successfully")]⟩) := by
    rw [e2]
    simp [mark_attendance, hb3, hu, hfind3, checkInRecord]
  refine ⟨e1, e2, e3, rfl, ?_, ?_⟩
  · intro b hb
    simp [mark_attendance, hb]
  · intro b v hbv hv
    simp [mark_attendance, hbv, hv]

/-- The body of the three witness calls: only `user_id` supplied. -/
theorem mark_attendance_toggle_witness :
    mark_attendance sampleStore t1 (some ⟨some 1, none, none⟩) =
      ({ sampleStore with
          records := sampleStore.records ++
            [⟨sampleStore.next_att_id, 1, t1, none,
              (none : Option String).getD "present", (none : Option String).getD "", t1.toDate⟩],
          next_att_id := sampleStore.next_att_id + 1 },
       ⟨201, Json.obj [("message", Json.s "Check-in recorded successfully")]⟩) ∧
    mark_attendance (mark_attendance sampleStore t1 (some ⟨some 1, none, none⟩)).1 t2
        (some ⟨some 1, none, none⟩) =
      ({ sampleStore with
          records := sampleStore.records ++
            [⟨sampleStore.next_att_id, 1, t1, some t2,
              (none : Option String).getD "present", (none : Option String).getD "", t1.toDate⟩],
          next_att_id := sampleStore.next_att_id + 1 },
       ⟨201, Json.obj [("message", Json.s "Check-out recorded successfully")]⟩) ∧
    mark_attendance (mark_attendance (mark_attendance sampleStore t1
        (some ⟨some 1, none, none⟩)).1 t2 (some ⟨some 1, none, none⟩)).1 t3
        (some ⟨some 1, none, none⟩) =
      ({ sampleStore with
          records := sampleStore.records ++
            [⟨sampleStore.next_att_id, 1, t1, some t2,
              (none : Option String).getD "present", (none : Option String).getD "", t1.toDate⟩,
             ⟨sampleStore.next_att_id + 1, 1, t3, none,
              (none : Option String).getD "present", (none : Option String).getD "", t3.toDate⟩],
          next_att_id := sampleStore.next_att_id + 1 + 1 },
       ⟨201, Json.obj [("message", Json.s "Check-in recorded successfully")]⟩) := by
  have H := mark_attendance_toggle sampleStore 1 sampleUser t1 t2 t3
    ⟨some 1, none, none⟩ ⟨some 1, none, none⟩ ⟨some 1, none, none⟩
    (by decide) rfl rfl rfl (by decide) (by decide) (by decide)
  exact ⟨H.1, H.2.1, H.2.2.1⟩

/-- C9: on the check-out path the supplied `status` and `notes` are
ignored: the first open record matching `(user_id, today)` keeps its
`id`, `user_id`, `date`, `check_in_time`, `status` and `notes`, only its
`check_out_time` is set, and the result does not depend on the body's
`status`/`notes` at all; supplied `status` and `notes` take effect only
on the check-in path. -/
theorem mark_attendance_checkout_frame (s : Store) (uid : Nat) (u : User) (now : DateTime)
    (b : MarkBody) (l₁ l₂ : List Attendance) (r : Attendance)
    (hu : findUser s.users uid = some u)
    (hb : b.user_id = some uid)
    (hs : s.records = l₁ ++ r :: l₂)
    (hl : ∀ x ∈ l₁, matchesToday uid now.toDate x = false)
    (hr : matchesToday uid now.toDate r = true)
    (hopen : r.check_out_time = none) :
    mark_attendance s now (some b) =
      ({ s with records := l₁ ++ { r with check_out_time := some now } :: l₂ },
       ⟨201, Json.obj [("message", Json.s "Check-out recorded successfully")]⟩) ∧
    ({ r with check_out_time := some now } : Attendance).id = r.id ∧
    ({ r with check_out_time := some now } : Attendance).user_id = r.user_id ∧
    ({ r with check_out_time := some now } : Attendance).date = r.date ∧
    ({ r with check_out_time := some now } : Attendance).check_in_time = r.check_in_time ∧
    ({ r with check_out_time := some now } : Attendance).status = r.status ∧
    ({ r with check_out_time := some now } : Attendance).notes = r.notes ∧
    (∀ (s0 : Store) (v : User), findUser s0.users uid = some v →
      s0.records.find? (fun x => matchesToday uid now.toDate x) = none →
      (mark_attendance s0 now (some b)).1.records =
        s0.records ++ [⟨s0.next_att_id, uid, now, none, b.status.getD "present",
          b.notes.getD "", now.toDate⟩]) := by
  have hlf : l₁.find? (fun x => matchesToday uid now.toDate x) = none :=
    List.find?_eq_none.mpr (fun x hx => by simp [hl x hx])
  have hfind : s.records.find? (fun x => matchesToday uid now.toDate x) = some r := by
    rw [hs, find?_append_left_none _ _ _ hlf]
    simp [hr]
  have hset : setCheckoutFirst uid now.toDate now s.records =
      l₁ ++ { r with check_out_time := some now } :: l₂ := by
    rw [hs]
    exact setCheckoutFirst_append uid now.toDate now l₁ l₂ r hl hr
  refine ⟨?_, rfl, rfl, rfl, rfl, rfl, rfl, ?_⟩
  · simp [mark_attendance, hb, hu, hfind, hopen, hset]
  · intro s0 v hv hfind0
    simp [mark_attendance, hb, hv, hfind0, checkInRecord]

/-- Witness for C9: a store whose single open record for user 1 today is
closed by the call; the supplied status `"late"` and notes are ignored. -/
theorem mark_attendance_checkout_frame_witness :
    mark_attendance ⟨[sampleUser], [⟨1, 1, t1, none, "present", "", d0⟩], 2, 2⟩ t2
        (some ⟨some 1, some "late", some "ignored"⟩) =
      ({ (⟨[sampleUser], [⟨1, 1, t1, none, "present", "", d0⟩], 2, 2⟩ : Store) with
          records := [] ++ { (⟨1, 1, t1, none, "present", "", d0⟩ : Attendance) with
            check_out_time := some t2 } :: [] },
       ⟨201, Json.obj [("message", Json.s "Check-out recorded successfully")]⟩) := by
  have H := mark_attendance_checkout_frame ⟨[sampleUser], [⟨1, 1, t1, none, "present", "", d0⟩], 2, 2⟩
    1 sampleUser t2 ⟨some 1, some "late", some "ignored"⟩ [] []
    ⟨1, 1, t1, none, "present", "", d0⟩ (by decide) rfl rfl (by decide) (by decide) rfl
  exact H.1

/-- Witness for C4: deleting user 1 from the concrete store removes the
user and all four of its records. -/
theorem delete_user_spec_witness :
    (delete_user wStore 1).1.users = wStore.users.filter (fun v => v.id != 1) ∧
    (delete_user wStore 1).1.records = wStore.records.filter (fun r => r.user_id != 1) ∧
    get_attendance (delete_user wStore 1).1 none (some 1) = ⟨200, Json.arr []⟩ :=
  ⟨((delete_user_spec wStore 1).2 sampleUser (by decide)).2.1,
   ((delete_user_spec wStore 1).2 sampleUser (by decide)).2.2.1,
   ((delete_user_spec wStore 1).2 sampleUser (by decide)).2.2.2.2.1⟩

/-- C8: every mutating handler either succeeds (200/201) or fails
atomically: on any 400/404/500 response the store is returned unchanged
(the rollback) and the body is `{'error': message}`; in particular a
malformed `check_out_time` string makes the attendance update discard the
already-assigned `status`/`notes` and respond 500 with no change. -/
theorem mutating_handlers_atomic (s : Store) :
    (∀ now data, atomicHandler s (create_user s now data)) ∧
    (∀ uid data, atomicHandler s (update_user s uid data)) ∧
    (∀ uid, atomicHandler s (delete_user s uid)) ∧
    (∀ now data, atomicHandler s (mark_attendance s now data)) ∧
    (∀ rid data, atomicHandler s (update_attendance s rid data)) ∧
    (∀ rid, atomicHandler s (delete_attendance s rid)) ∧
    (∀ (rid : Nat) (d : AttUpdateBody) (r : Attendance) (ts : String),
      findRecord s.records rid = some r → d.check_out_time = some ts →
      fromisoformat ts = none →
      update_attendance s rid (some d) = (s, errResp 500 "Invalid isoformat string")) := by
  refine ⟨?_, ?_, ?_, ?_, ?_, ?_, ?_⟩
  · rintro now data
    rcases data with _ | ⟨du, de, dp, dr⟩
    · simp [atomicHandler, create_user, errResp]
    · rcases du with _ | un <;> rcases de with _ | em <;> rcases dp with _ | pw <;>
        simp only [create_user] <;> (try split_ifs) <;> simp [atomicHandler, errResp]
  · rintro uid data
    cases hf : findUser s.users uid with
    | none =>
      rcases data with _ | d <;> simp [atomicHandler, update_user, hf, errResp]
    | some u =>
      rcases data with _ | d
      · simp [atomicHandler, update_user, hf, errResp]
      · simp only [atomicHandler, update_user, hf]
        split_ifs <;> simp [errResp]
  · intro uid
    cases hf : findUser s.users uid with
    | none => simp [atomicHandler, delete_user, hf, errResp]
    | some u => simp [atomicHandler, delete_user, hf, errResp]
  · rintro now data
    rcases data with _ | ⟨du, dst, dn⟩
    · simp [atomicHandler, mark_attendance, errResp]
    · rcases du with _ | v
      · simp [atomicHandler, mark_attendance, errResp]
      · cases hf : findUser s.users v with
        | none => simp [atomicHandler, mark_attendance, hf, errResp]
        | some u =>
          cases hx : s.records.find? (fun r => matchesToday v now.toDate r) with
          | none => simp [atomicHandler, mark_attendance, hf, hx, checkInRecord, errResp]
          | some ex =>
            by_cases hco : ex.check_out_time = none <;>
              simp [atomicHandler, mark_attendance, hf, hx, hco, checkInRecord, errResp]
  · rintro rid data
    cases hr : findRecord s.records rid with
    | none =>
      rcases data with _ | ⟨dst, dn, dco⟩ <;>
        simp [atomicHandler, update_attendance, hr, errResp]
    | some r =>
      rcases data with _ | ⟨dst, dn, dco⟩
      · simp [atomicHandler, update_attendance, hr, errResp]
      · rcases dco with _ | ts
        · simp [atomicHandler, update_attendance, hr, errResp]
        · cases hts : fromisoformat ts with
          | none => simp [atomicHandler, update_attendance, hr, hts, errResp]
          | some t => simp [atomicHandler, update_attendance, hr, hts, errResp]
  · intro rid
    cases hr : findRecord s.records rid with
    | none => simp [atomicHandler, delete_attendance, hr, errResp]
    | some r => simp [atomicHandler, delete_attendance, hr, errResp]
  · rintro rid ⟨dst, dn, dco⟩ r ts hrr hco hts
    simp only at hco
    subst hco
    simp [update_attendance, hrr, hts, errResp]

/-- Witness for C8: a malformed timestamp in the attendance update on the
concrete store rolls back and responds 500. -/
theorem mutating_handlers_atomic_witness :
    update_attendance wStore 1 (some ⟨some "late", none, some "bad-timestamp"⟩) =
      (wStore, errResp 500 "Invalid isoformat string") :=
  (mutating_handlers_atomic wStore).2.2.2.2.2.2 1 ⟨some "late", none, some "bad-timestamp"⟩
    ⟨1, 1, t1, none, "present", "", d0⟩ "bad-timestamp" (by decide) rfl (by decide)

end AttendanceApp
